import Mathlib

/-!
Shallow embedding of `ompy/ensemble.py` (class `Ensemble`): ensemble
generation with stochastic perturbation, a three-stage checkpointed
pipeline (raw → unfolded → first generation), and standard-deviation
summaries.  The `Matrix` value object, the on-disk artifact store and the
`Unfolder` / first-generation collaborators live outside `src/` and are
modelled from the spec (sections 3 and 6).
-/

namespace Ompy

/-- Modelled from the spec: the 2D spectrum value object (`Matrix`,
defined in the out-of-scope module `ompy/matrix.py`): a 2D grid of
real-valued counts of shape `(len(Ex), len(Eg))`, two energy axes and a
provenance `state` tag.  `values i j` is meaningful for `i < rows`,
`j < cols`.  `ensemble.py` reads the grid as `.values` (and once, line
215, as `.value`; both denote the counts grid of this model). -/
structure OMat where
  rows : ℕ
  cols : ℕ
  values : ℕ → ℕ → ℝ
  Eg : List ℝ
  Ex : List ℝ
  state : Option String

/-- Shape of a spectrum, as the numpy 2-tuple `values.shape`. -/
def OMat.shape (m : OMat) : List ℕ := [m.rows, m.cols]

/-- Artifact names used inside the `save_path` directory of one
`Ensemble` instance (spec section 6 layout). -/
inductive Path where
  | rawStep (k : ℕ)
  | unfoldedStep (k : ℕ)
  | firstgenStep (k : ℕ)
  | rawSummary
  | unfoldedSummary
  | firstgenSummary
deriving DecidableEq

/-- File name (relative to `save_path`) denoted by each `Path`,
mirroring `f"raw_{step}.m"` etc. and the fixed summary names. -/
def Path.fileName : Path → String
  | .rawStep k => "raw_" ++ toString k ++ ".m"
  | .unfoldedStep k => "unfolded_" ++ toString k ++ ".m"
  | .firstgenStep k => "firstgen_" ++ toString k ++ ".m"
  | .rawSummary => "raw.m"
  | .unfoldedSummary => "unfolded_std.m"
  | .firstgenSummary => "first_std.m"

/-- Failure modes of one `generate` call (spec section 7 taxonomy):
`unsupportedMethod` is the `ValueError` of `generate_raw`,
`storageFailure` an I/O error on `Matrix.save`, `missingCollaborator`
the `AttributeError` from calling an unset `unfolder` /
`first_generation_method`, `missingAttribute` the `AttributeError` from
reading `self.firstgen` when the loop body never ran. -/
inductive OmpyError where
  | unsupportedMethod (method : String)
  | storageFailure (p : Path)
  | missingCollaborator
  | missingAttribute
deriving DecidableEq

/-- Modelled from the spec: the per-instance on-disk artifact directory
(`Matrix.save` / `Matrix(filename=...)` round-trip axes, values and
state verbatim, spec section 6).  `store` maps an artifact name to its
persisted spectrum; `writeOK` is the oracle saying which writes succeed
(a failed write is the spec's `StorageFailure`). -/
structure FS where
  store : Path → Option OMat
  writeOK : Path → Bool

/-- Overwrite the entry at `p` (a successful `Matrix.save`). -/
def FS.insert (fs : FS) (p : Path) (m : OMat) : FS :=
  { fs with store := fun q => if q = p then some m else fs.store q }

/-- Persist a spectrum at `p`: succeeds iff the write oracle allows it. -/
def FS.save (fs : FS) (p : Path) (m : OMat) : Except OmpyError FS :=
  if fs.writeOK p then .ok (fs.insert p m) else .error (.storageFailure p)

/-- Modelled from the spec: the random source behind `np.random`.
`normal step i j` is the standard-normal draw used for cell `(i, j)` of
draw `step` (so `np.random.normal(loc, scale)` is `loc + scale * z`),
and `poisson step i j lam` the Poisson draw at rate `lam`.  A Poisson
draw at rate `0` is `0` with probability one, which every realization
satisfies (`poisson_zero`). -/
structure RandSrc where
  normal : ℕ → ℕ → ℕ → ℝ
  poisson : ℕ → ℕ → ℕ → ℝ → ℕ
  poisson_zero : ∀ s i j, poisson s i j 0 = 0

/-- The `Ensemble` object: reference spectrum, the two collaborators
(`None` until assigned by the caller) and the `regenerate` flag set by
`generate`.  The `save_path` directory is implicit in `FS`. -/
structure Ensemble where
  raw : OMat
  unfolder : Option (OMat → OMat)
  first_generation_method : Option (OMat → OMat)
  regenerate : Bool

/-- Line 215 / 227: `np.sqrt(np.where(raw.values > 0, raw.values, 0))`,
the per-cell scale used by both perturbation models. -/
noncomputable def Ensemble.rawStd (E : Ensemble) (i j : ℕ) : ℝ :=
  Real.sqrt (if 0 < E.raw.values i j then E.raw.values i j else 0)

/-- Lines 209-219, `Ensemble.generate_gaussian`: draw each cell from a
normal distribution centered at the reference value with scale
`rawStd`, then clamp negative cells to zero (`perturbed[perturbed < 0] = 0`). -/
noncomputable def Ensemble.generate_gaussian (E : Ensemble) (z : ℕ → ℕ → ℝ) (i j : ℕ) : ℝ :=
  let perturbed := E.raw.values i j + E.rawStd i j * z i j
  if perturbed < 0 then 0 else perturbed

/-- Lines 221-229, `Ensemble.generate_poisson`: draw each cell from a
Poisson distribution with rate `rawStd` (integer output, no clamping). -/
noncomputable def Ensemble.generate_poisson (E : Ensemble) (pois : ℕ → ℕ → ℝ → ℕ)
    (i j : ℕ) : ℕ :=
  pois i j (E.rawStd i j)

/-- Line 163: `Matrix(values, Eg=self.raw.Eg, Ex=self.raw.Ex)` — a
freshly perturbed raw spectrum carries the reference shape and axes. -/
def Ensemble.mkRawMat (E : Ensemble) (values : ℕ → ℕ → ℝ) : OMat :=
  { rows := E.raw.rows, cols := E.raw.cols, values := values,
    Eg := E.raw.Eg, Ex := E.raw.Ex, state := none }

/-- Lines 139-165, `Ensemble.generate_raw`: load `raw_{step}.m` when it
exists and `regenerate` is false; otherwise perturb by the named method
(unknown names raise `ValueError` before any computation or write),
persist, and return. -/
noncomputable def Ensemble.generate_raw (E : Ensemble) (fs : FS) (step : ℕ)
    (method : String) (rnd : RandSrc) : Except OmpyError (OMat × FS) :=
  match fs.store (Path.rawStep step), E.regenerate with
  | some current, false => .ok (current, fs)
  | _, _ =>
    if method = "gaussian" then
      let current := E.mkRawMat (E.generate_gaussian (rnd.normal step))
      match fs.save (Path.rawStep step) current with
      | .error e => .error e
      | .ok fs' => .ok (current, fs')
    else if method = "poisson" then
      let current := E.mkRawMat (fun i j => (E.generate_poisson (rnd.poisson step) i j : ℝ))
      match fs.save (Path.rawStep step) current with
      | .error e => .error e
      | .ok fs' => .ok (current, fs')
    else
      .error (.unsupportedMethod method)

/-- Lines 167-186, `Ensemble.unfold`: load `unfolded_{step}.m` when it
exists and `regenerate` is false; otherwise delegate to
`self.unfolder.unfold(raw)`, persist, and return. -/
def Ensemble.unfold (E : Ensemble) (fs : FS) (step : ℕ) (raw : OMat) :
    Except OmpyError (OMat × FS) :=
  match fs.store (Path.unfoldedStep step), E.regenerate with
  | some unfolded, false => .ok (unfolded, fs)
  | _, _ =>
    match E.unfolder with
    | none => .error .missingCollaborator
    | some u =>
      let unfolded := u raw
      match fs.save (Path.unfoldedStep step) unfolded with
      | .error e => .error e
      | .ok fs' => .ok (unfolded, fs')

/-- Lines 188-207, `Ensemble.first_generation`: load `firstgen_{step}.m`
when it exists and `regenerate` is false; otherwise delegate to
`self.first_generation_method(unfolded)`, persist, and return. -/
def Ensemble.first_generation (E : Ensemble) (fs : FS) (step : ℕ) (unfolded : OMat) :
    Except OmpyError (OMat × FS) :=
  match fs.store (Path.firstgenStep step), E.regenerate with
  | some firstgen, false => .ok (firstgen, fs)
  | _, _ =>
    match E.first_generation_method with
    | none => .error .missingCollaborator
    | some f =>
      let firstgen := f unfolded
      match fs.save (Path.firstgenStep step) firstgen with
      | .error e => .error e
      | .ok fs' => .ok (firstgen, fs')

/-- One of the three per-stage ensemble arrays: a numpy array of shape
`(n, rows, cols)` as allocated by `np.zeros((number, *shape))`. -/
structure Stack where
  n : ℕ
  rows : ℕ
  cols : ℕ
  values : ℕ → ℕ → ℕ → ℝ

/-- `np.zeros((n, rows, cols))`. -/
def Stack.zeros (n rows cols : ℕ) : Stack :=
  { n := n, rows := rows, cols := cols, values := fun _ _ _ => 0 }

/-- The numpy shape 3-tuple of the stack. -/
def Stack.shape (s : Stack) : List ℕ := [s.n, s.rows, s.cols]

/-- Slice assignment `stack[step, :, :] = m.values`. -/
def Stack.set (s : Stack) (step : ℕ) (m : OMat) : Stack :=
  { s with values := fun k i j => if k = step then m.values i j else s.values k i j }

/-- `np.mean(values, axis=0)` at cell `(i, j)`. -/
noncomputable def meanAxis0 (s : Stack) (i j : ℕ) : ℝ :=
  (∑ k ∈ Finset.range s.n, s.values k i j) / s.n

/-- `np.std(values, axis=0)` at cell `(i, j)`: the population standard
deviation over the first axis. -/
noncomputable def stdAxis0 (s : Stack) (i j : ℕ) : ℝ :=
  Real.sqrt ((∑ k ∈ Finset.range s.n, (s.values k i j - meanAxis0 s i j) ^ 2) / s.n)

/-- Lines 119-130: `Matrix(np.std(stack, axis=0), Eg, Ex, state='std')`. -/
noncomputable def stdMat (s : Stack) (Eg Ex : List ℝ) : OMat :=
  { rows := s.rows, cols := s.cols, values := stdAxis0 s,
    Eg := Eg, Ex := Ex, state := some "std" }

/-- Mutable state threaded through the `for step in range(number)` loop
of `generate`: the artifact directory, the three ensemble stacks and
the `self.firstgen` attribute (unset before the first iteration). -/
structure LoopState where
  fs : FS
  rawE : Stack
  unfE : Stack
  fgE : Stack
  firstgen : Option OMat

/-- Lines 99-101: the three stacks are allocated with the reference
spectrum's cell shape before the loop. -/
def initState (raw : OMat) (fs : FS) (number : ℕ) : LoopState :=
  { fs := fs,
    rawE := Stack.zeros number raw.rows raw.cols,
    unfE := Stack.zeros number raw.rows raw.cols,
    fgE := Stack.zeros number raw.rows raw.cols,
    firstgen := none }

/-- Lines 104-115: one iteration of the `generate` loop.  The three
stages run in sequence (an exception aborts the iteration, carrying the
directory state reached so far); then the raw and unfolded results are
written into their stacks, the firstgen stack is reallocated whenever
`firstgen_ensemble.shape != firstgen.shape` (note: the left side is the
3-tuple `(number, rows, cols)`, the right side the 2-tuple of the
matrix), `self.firstgen` is set, and the firstgen result is written. -/
noncomputable def genStep (E : Ensemble) (rnd : RandSrc) (method : String)
    (number step : ℕ) (st : LoopState) : Except (OmpyError × FS) LoopState :=
  match E.generate_raw st.fs step method rnd with
  | .error e => .error (e, st.fs)
  | .ok (raw, fs1) =>
    match E.unfold fs1 step raw with
    | .error e => .error (e, fs1)
    | .ok (unfolded, fs2) =>
      match E.first_generation fs2 step unfolded with
      | .error e => .error (e, fs2)
      | .ok (firstgen, fs3) =>
        let fgE := if st.fgE.shape ≠ firstgen.shape
          then Stack.zeros number firstgen.rows firstgen.cols else st.fgE
        .ok { fs := fs3,
              rawE := st.rawE.set step raw,
              unfE := st.unfE.set step unfolded,
              fgE := fgE.set step firstgen,
              firstgen := some firstgen }

/-- `for step in range(k)` over `genStep` (steps `0, …, k-1` in order);
an exception short-circuits the remaining iterations. -/
noncomputable def genLoop (E : Ensemble) (rnd : RandSrc) (method : String)
    (number : ℕ) : ℕ → LoopState → Except (OmpyError × FS) LoopState
  | 0, st => .ok st
  | k + 1, st =>
    match genLoop E rnd method number k st with
    | .error e => .error e
    | .ok st' => genStep E rnd method number k st'

/-- The externally visible outcome of a successful `generate` call: the
attributes assigned in lines 133-137. -/
structure EnsembleResult where
  std_raw : OMat
  std_unfolded : OMat
  std_firstgen : OMat
  firstgen_ensemble : Stack

/-- Lines 82-137, `Ensemble.generate`: set the regenerate flag, allocate
the stacks, run the loop, then compute and persist the three
standard-deviation summaries (`raw.m`, `unfolded_std.m`, `first_std.m`)
and assign the result attributes.  The returned `FS` is the directory
state after the call, also when the call raised. -/
noncomputable def Ensemble.generate (E₀ : Ensemble) (fs₀ : FS) (number : ℕ)
    (method : String) (regenerate : Bool) (rnd : RandSrc) :
    Except OmpyError EnsembleResult × FS :=
  match genLoop { E₀ with regenerate := regenerate } rnd method number number
      (initState E₀.raw fs₀ number) with
  | .error (e, fsE) => (.error e, fsE)
  | .ok st =>
    let raw_std := stdMat st.rawE E₀.raw.Eg E₀.raw.Ex
    match st.fs.save Path.rawSummary raw_std with
    | .error e => (.error e, st.fs)
    | .ok fs1 =>
      let unfolded_std := stdMat st.unfE E₀.raw.Eg E₀.raw.Ex
      match fs1.save Path.unfoldedSummary unfolded_std with
      | .error e => (.error e, fs1)
      | .ok fs2 =>
        match st.firstgen with
        | none => (.error .missingAttribute, fs2)
        | some firstgen =>
          let firstgen_std := stdMat st.fgE firstgen.Eg firstgen.Ex
          match fs2.save Path.firstgenSummary firstgen_std with
          | .error e => (.error e, fs2)
          | .ok fs3 =>
            (.ok { std_raw := raw_std, std_unfolded := unfolded_std,
                   std_firstgen := firstgen_std, firstgen_ensemble := st.fgE }, fs3)

/-! ### Basic lemmas -/

theorem ite_pos_eq_max (v : ℝ) : (if 0 < v then v else 0) = max v 0 := by
  rcases le_or_lt v 0 with h | h
  · rw [if_neg (not_lt.mpr h), max_eq_right h]
  · rw [if_pos h, max_eq_left h.le]

theorem ite_neg_eq_max (x : ℝ) : (if x < 0 then 0 else x) = max 0 x := by
  rcases lt_or_le x 0 with h | h
  · rw [if_pos h, max_eq_left h.le]
  · rw [if_neg (not_lt.mpr h), max_eq_right h]

theorem rawStd_eq_sqrt_max (E : Ensemble) (i j : ℕ) :
    E.rawStd i j = Real.sqrt (max (E.raw.values i j) 0) := by
  rw [Ensemble.rawStd, ite_pos_eq_max]

@[simp] theorem FS.insert_store_self (fs : FS) (p : Path) (m : OMat) :
    (fs.insert p m).store p = some m := by
  simp [FS.insert]

theorem FS.insert_store_of_ne (fs : FS) (p : Path) (m : OMat) {q : Path} (h : q ≠ p) :
    (fs.insert p m).store q = fs.store q := by
  simp [FS.insert, h]

@[simp] theorem FS.insert_writeOK (fs : FS) (p : Path) (m : OMat) :
    (fs.insert p m).writeOK = fs.writeOK := rfl

theorem FS.save_of_writeOK (fs : FS) (p : Path) (m : OMat) (h : fs.writeOK p = true) :
    fs.save p m = .ok (fs.insert p m) := by
  simp [FS.save, h]

/-! ### Branch behavior of the three checkpointed stages -/

theorem generate_raw_hit (E : Ensemble) (fs : FS) (step : ℕ) (method : String)
    (rnd : RandSrc) (m : OMat) (hreg : E.regenerate = false)
    (h : fs.store (Path.rawStep step) = some m) :
    E.generate_raw fs step method rnd = .ok (m, fs) := by
  unfold Ensemble.generate_raw
  rw [h, hreg]

theorem unfold_hit (E : Ensemble) (fs : FS) (step : ℕ) (raw : OMat) (m : OMat)
    (hreg : E.regenerate = false) (h : fs.store (Path.unfoldedStep step) = some m) :
    E.unfold fs step raw = .ok (m, fs) := by
  unfold Ensemble.unfold
  rw [h, hreg]

theorem first_generation_hit (E : Ensemble) (fs : FS) (step : ℕ) (unfolded : OMat)
    (m : OMat) (hreg : E.regenerate = false)
    (h : fs.store (Path.firstgenStep step) = some m) :
    E.first_generation fs step unfolded = .ok (m, fs) := by
  unfold Ensemble.first_generation
  rw [h, hreg]

theorem generate_raw_poisson_miss (E : Ensemble) (fs : FS) (step : ℕ) (rnd : RandSrc)
    (hmiss : fs.store (Path.rawStep step) = none)
    (hw : fs.writeOK (Path.rawStep step) = true) :
    E.generate_raw fs step "poisson" rnd =
      .ok (E.mkRawMat (fun i j => (E.generate_poisson (rnd.poisson step) i j : ℝ)),
        fs.insert (Path.rawStep step)
          (E.mkRawMat (fun i j => (E.generate_poisson (rnd.poisson step) i j : ℝ)))) := by
  unfold Ensemble.generate_raw
  rw [hmiss]
  simp [FS.save, hw]

theorem generate_raw_gaussian_miss (E : Ensemble) (fs : FS) (step : ℕ) (rnd : RandSrc)
    (hmiss : fs.store (Path.rawStep step) = none)
    (hw : fs.writeOK (Path.rawStep step) = true) :
    E.generate_raw fs step "gaussian" rnd =
      .ok (E.mkRawMat (E.generate_gaussian (rnd.normal step)),
        fs.insert (Path.rawStep step) (E.mkRawMat (E.generate_gaussian (rnd.normal step)))) := by
  unfold Ensemble.generate_raw
  rw [hmiss]
  simp [FS.save, hw]

theorem generate_raw_unsupported_of_miss (E : Ensemble) (fs : FS) (step : ℕ)
    (method : String) (rnd : RandSrc)
    (hm1 : method ≠ "gaussian") (hm2 : method ≠ "poisson")
    (h : fs.store (Path.rawStep step) = none ∨ E.regenerate = true) :
    E.generate_raw fs step method rnd = .error (.unsupportedMethod method) := by
  unfold Ensemble.generate_raw
  rcases h with h | h
  · rw [h]
    simp [hm1, hm2]
  · rw [h]
    cases hs : fs.store (Path.rawStep step) <;> simp [hm1, hm2]

theorem unfold_miss (E : Ensemble) (fs : FS) (step : ℕ) (raw : OMat) (u : OMat → OMat)
    (hmiss : fs.store (Path.unfoldedStep step) = none) (hu : E.unfolder = some u)
    (hw : fs.writeOK (Path.unfoldedStep step) = true) :
    E.unfold fs step raw = .ok (u raw, fs.insert (Path.unfoldedStep step) (u raw)) := by
  unfold Ensemble.unfold
  rw [hmiss, hu]
  simp [FS.save, hw]

theorem first_generation_miss (E : Ensemble) (fs : FS) (step : ℕ) (unfolded : OMat)
    (f : OMat → OMat)
    (hmiss : fs.store (Path.firstgenStep step) = none)
    (hf : E.first_generation_method = some f)
    (hw : fs.writeOK (Path.firstgenStep step) = true) :
    E.first_generation fs step unfolded =
      .ok (f unfolded, fs.insert (Path.firstgenStep step) (f unfolded)) := by
  unfold Ensemble.first_generation
  rw [hmiss, hf]
  simp [FS.save, hw]

/-! ### Replay of the loop over a fully cached directory -/

/-- Effect of one cache-hit iteration on the loop state: the cached
raw/unfolded/firstgen spectra go into the stacks and the directory is
untouched. -/
def stepUpdate (number step : ℕ) (r u g : OMat) (st : LoopState) : LoopState :=
  { st with
    rawE := st.rawE.set step r,
    unfE := st.unfE.set step u,
    fgE := (if st.fgE.shape ≠ g.shape
              then Stack.zeros number g.rows g.cols else st.fgE).set step g,
    firstgen := some g }

/-- Pure replay of steps `0, …, k-1` of the loop reading every artifact
from the directory; it depends only on the per-draw entries of `fs`,
never on the random source or the method name. -/
def cachedState (fs : FS) (number : ℕ) : ℕ → LoopState → LoopState
  | 0, st => st
  | k + 1, st =>
    match fs.store (Path.rawStep k), fs.store (Path.unfoldedStep k),
        fs.store (Path.firstgenStep k) with
    | some r, some u, some g => stepUpdate number k r u g (cachedState fs number k st)
    | _, _, _ => cachedState fs number k st

theorem cachedState_fs (fs : FS) (number k : ℕ) (st : LoopState) :
    (cachedState fs number k st).fs = st.fs := by
  induction k with
  | zero => rfl
  | succ k ih =>
    unfold cachedState
    cases fs.store (Path.rawStep k) <;> cases fs.store (Path.unfoldedStep k) <;>
      cases fs.store (Path.firstgenStep k) <;> simp [stepUpdate, ih]

theorem genStep_cached (E : Ensemble) (rnd : RandSrc) (method : String)
    (number step : ℕ) (st : LoopState) (r u g : OMat)
    (hreg : E.regenerate = false)
    (hr : st.fs.store (Path.rawStep step) = some r)
    (hu : st.fs.store (Path.unfoldedStep step) = some u)
    (hg : st.fs.store (Path.firstgenStep step) = some g) :
    genStep E rnd method number step st = .ok (stepUpdate number step r u g st) := by
  unfold genStep
  simp only [generate_raw_hit E st.fs step method rnd r hreg hr,
    unfold_hit E st.fs step r u hreg hu,
    first_generation_hit E st.fs step u g hreg hg, stepUpdate]

theorem genLoop_cached (E : Ensemble) (rnd : RandSrc) (method : String)
    (number k : ℕ) (st : LoopState) (hreg : E.regenerate = false)
    (hc : ∀ j, j < k →
      (st.fs.store (Path.rawStep j)).isSome ∧
      (st.fs.store (Path.unfoldedStep j)).isSome ∧
      (st.fs.store (Path.firstgenStep j)).isSome) :
    genLoop E rnd method number k st = .ok (cachedState st.fs number k st) := by
  induction k with
  | zero => rfl
  | succ k ih =>
    have hck : ∀ j, j < k →
        (st.fs.store (Path.rawStep j)).isSome ∧
        (st.fs.store (Path.unfoldedStep j)).isSome ∧
        (st.fs.store (Path.firstgenStep j)).isSome :=
      fun j hj => hc j (hj.trans (Nat.lt_succ_self k))
    obtain ⟨r, hr⟩ := Option.isSome_iff_exists.mp (hc k (Nat.lt_succ_self k)).1
    obtain ⟨u, hu⟩ := Option.isSome_iff_exists.mp (hc k (Nat.lt_succ_self k)).2.1
    obtain ⟨g, hg⟩ := Option.isSome_iff_exists.mp (hc k (Nat.lt_succ_self k)).2.2
    have hfs := cachedState_fs st.fs number k st
    unfold genLoop
    simp only [ih hck,
      genStep_cached E rnd method number k _ r u g hreg
        (by rw [hfs]; exact hr) (by rw [hfs]; exact hu) (by rw [hfs]; exact hg)]
    simp [cachedState, hr, hu, hg]

theorem cachedState_set_fs (fs f : FS) (number k : ℕ) (st : LoopState) :
    cachedState fs number k { st with fs := f } =
      { cachedState fs number k st with fs := f } := by
  induction k with
  | zero => rfl
  | succ k ih =>
    unfold cachedState
    rw [ih]
    cases fs.store (Path.rawStep k) <;> cases fs.store (Path.unfoldedStep k) <;>
      cases fs.store (Path.firstgenStep k) <;> simp [stepUpdate]

theorem cachedState_congr (fs fs' : FS) (number k : ℕ) (st : LoopState)
    (h : ∀ j, j < k →
      fs'.store (Path.rawStep j) = fs.store (Path.rawStep j) ∧
      fs'.store (Path.unfoldedStep j) = fs.store (Path.unfoldedStep j) ∧
      fs'.store (Path.firstgenStep j) = fs.store (Path.firstgenStep j)) :
    cachedState fs' number k st = cachedState fs number k st := by
  induction k with
  | zero => rfl
  | succ k ih =>
    have hk := h k (Nat.lt_succ_self k)
    unfold cachedState
    rw [hk.1, hk.2.1, hk.2.2, ih (fun j hj => h j (hj.trans (Nat.lt_succ_self k)))]

theorem cachedState_firstgen (fs : FS) (number k : ℕ) (st : LoopState) (r u g : OMat)
    (hr : fs.store (Path.rawStep k) = some r)
    (hu : fs.store (Path.unfoldedStep k) = some u)
    (hg : fs.store (Path.firstgenStep k) = some g) :
    (cachedState fs number (k + 1) st).firstgen = some g := by
  unfold cachedState
  rw [hr, hu, hg]
  rfl

/-! ### The summary phase of `generate` -/

theorem generate_of_loop_ok (E₀ : Ensemble) (fs₀ : FS) (number : ℕ) (method : String)
    (r : Bool) (rnd : RandSrc) (st : LoopState) (fg : OMat)
    (hloop : genLoop { E₀ with regenerate := r } rnd method number number
      (initState E₀.raw fs₀ number) = .ok st)
    (hfg : st.firstgen = some fg)
    (hw1 : st.fs.writeOK Path.rawSummary = true)
    (hw2 : st.fs.writeOK Path.unfoldedSummary = true)
    (hw3 : st.fs.writeOK Path.firstgenSummary = true) :
    E₀.generate fs₀ number method r rnd =
      (.ok { std_raw := stdMat st.rawE E₀.raw.Eg E₀.raw.Ex,
             std_unfolded := stdMat st.unfE E₀.raw.Eg E₀.raw.Ex,
             std_firstgen := stdMat st.fgE fg.Eg fg.Ex,
             firstgen_ensemble := st.fgE },
       ((st.fs.insert Path.rawSummary (stdMat st.rawE E₀.raw.Eg E₀.raw.Ex)).insert
           Path.unfoldedSummary (stdMat st.unfE E₀.raw.Eg E₀.raw.Ex)).insert
         Path.firstgenSummary (stdMat st.fgE fg.Eg fg.Ex)) := by
  have hw2' : ((st.fs.insert Path.rawSummary
      (stdMat st.rawE E₀.raw.Eg E₀.raw.Ex))).writeOK Path.unfoldedSummary = true := hw2
  have hw3' : (((st.fs.insert Path.rawSummary
      (stdMat st.rawE E₀.raw.Eg E₀.raw.Ex)).insert Path.unfoldedSummary
      (stdMat st.unfE E₀.raw.Eg E₀.raw.Ex))).writeOK Path.firstgenSummary = true := hw3
  unfold Ensemble.generate
  simp only [hloop, hfg, FS.save_of_writeOK _ _ _ hw1,
    FS.save_of_writeOK _ _ _ hw2', FS.save_of_writeOK _ _ _ hw3']

/-! ### The loop never touches the three summary files -/

/-- The three summary entries of `fsA` agree with those of `fsB`. -/
def preservesSummaries (fsA fsB : FS) : Prop :=
  fsA.store Path.rawSummary = fsB.store Path.rawSummary ∧
  fsA.store Path.unfoldedSummary = fsB.store Path.unfoldedSummary ∧
  fsA.store Path.firstgenSummary = fsB.store Path.firstgenSummary

theorem preservesSummaries_refl (fs : FS) : preservesSummaries fs fs := ⟨rfl, rfl, rfl⟩

theorem preservesSummaries_trans {fsA fsB fsC : FS}
    (h1 : preservesSummaries fsA fsB) (h2 : preservesSummaries fsB fsC) :
    preservesSummaries fsA fsC :=
  ⟨h1.1.trans h2.1, h1.2.1.trans h2.2.1, h1.2.2.trans h2.2.2⟩

theorem insert_rawStep_preservesSummaries (fs : FS) (k : ℕ) (m : OMat) :
    preservesSummaries (fs.insert (Path.rawStep k) m) fs :=
  ⟨FS.insert_store_of_ne fs _ m (by simp), FS.insert_store_of_ne fs _ m (by simp),
    FS.insert_store_of_ne fs _ m (by simp)⟩

theorem insert_unfoldedStep_preservesSummaries (fs : FS) (k : ℕ) (m : OMat) :
    preservesSummaries (fs.insert (Path.unfoldedStep k) m) fs :=
  ⟨FS.insert_store_of_ne fs _ m (by simp), FS.insert_store_of_ne fs _ m (by simp),
    FS.insert_store_of_ne fs _ m (by simp)⟩

theorem insert_firstgenStep_preservesSummaries (fs : FS) (k : ℕ) (m : OMat) :
    preservesSummaries (fs.insert (Path.firstgenStep k) m) fs :=
  ⟨FS.insert_store_of_ne fs _ m (by simp), FS.insert_store_of_ne fs _ m (by simp),
    FS.insert_store_of_ne fs _ m (by simp)⟩

theorem generate_raw_preservesSummaries (E : Ensemble) (fs : FS) (step : ℕ)
    (method : String) (rnd : RandSrc) (m : OMat) (fs' : FS)
    (h : E.generate_raw fs step method rnd = .ok (m, fs')) :
    preservesSummaries fs' fs := by
  unfold Ensemble.generate_raw FS.save at h
  repeat' split at h
  all_goals cases h
  all_goals
    first
      | exact preservesSummaries_refl fs
      | (rename_i heq
         cases heq
         exact insert_rawStep_preservesSummaries fs step _)
      | (rename_i heq
         cases heq)

theorem unfold_preservesSummaries (E : Ensemble) (fs : FS) (step : ℕ)
    (raw : OMat) (rnd : RandSrc) (m : OMat) (fs' : FS)
    (h : E.unfold fs step raw = .ok (m, fs')) :
    preservesSummaries fs' fs := by
  unfold Ensemble.unfold FS.save at h
  repeat' split at h
  all_goals cases h
  all_goals
    first
      | exact preservesSummaries_refl fs
      | (rename_i heq
         cases heq
         exact insert_unfoldedStep_preservesSummaries fs step _)
      | (rename_i heq
         cases heq)

theorem first_generation_preservesSummaries (E : Ensemble) (fs : FS) (step : ℕ)
    (unfolded : OMat) (m : OMat) (fs' : FS)
    (h : E.first_generation fs step unfolded = .ok (m, fs')) :
    preservesSummaries fs' fs := by
  unfold Ensemble.first_generation FS.save at h
  repeat' split at h
  all_goals cases h
  all_goals
    first
      | exact preservesSummaries_refl fs
      | (rename_i heq
         cases heq
         exact insert_firstgenStep_preservesSummaries fs step _)
      | (rename_i heq
         cases heq)

theorem genStep_preservesSummaries (E : Ensemble) (rnd : RandSrc) (method : String)
    (number step : ℕ) (st : LoopState) :
    (∀ st', genStep E rnd method number step st = .ok st' →
      preservesSummaries st'.fs st.fs) ∧
    (∀ e fsE, genStep E rnd method number step st = .error (e, fsE) →
      preservesSummaries fsE st.fs) := by
  rcases h1 : E.generate_raw st.fs step method rnd with e1 | ⟨raw, fs1⟩
  · constructor
    · intro st' h
      unfold genStep at h
      simp only [h1] at h
      cases h
    · intro e fsE h
      unfold genStep at h
      simp only [h1] at h
      injection h with h'
      injection h' with he hfs
      subst hfs
      exact preservesSummaries_refl st.fs
  · have p1 := generate_raw_preservesSummaries E st.fs step method rnd raw fs1 h1
    rcases h2 : E.unfold fs1 step raw with e2 | ⟨unfolded, fs2⟩
    · constructor
      · intro st' h
        unfold genStep at h
        simp only [h1, h2] at h
        cases h
      · intro e fsE h
        unfold genStep at h
        simp only [h1, h2] at h
        injection h with h'
        injection h' with he hfs
        subst hfs
        exact p1
    · have p2 := unfold_preservesSummaries E fs1 step raw rnd unfolded fs2 h2
      rcases h3 : E.first_generation fs2 step unfolded with e3 | ⟨firstgen, fs3⟩
      · constructor
        · intro st' h
          unfold genStep at h
          simp only [h1, h2, h3] at h
          cases h
        · intro e fsE h
          unfold genStep at h
          simp only [h1, h2, h3] at h
          injection h with h'
          injection h' with he hfs
          subst hfs
          exact preservesSummaries_trans p2 p1
      · have p3 := first_generation_preservesSummaries E fs2 step unfolded firstgen fs3 h3
        constructor
        · intro st' h
          unfold genStep at h
          simp only [h1, h2, h3] at h
          injection h with h'
          subst h'
          exact preservesSummaries_trans (preservesSummaries_trans p3 p2) p1
        · intro e fsE h
          unfold genStep at h
          simp only [h1, h2, h3] at h
          cases h

theorem genLoop_preservesSummaries (E : Ensemble) (rnd : RandSrc) (method : String)
    (number k : ℕ) (st : LoopState) :
    (∀ st', genLoop E rnd method number k st = .ok st' →
      preservesSummaries st'.fs st.fs) ∧
    (∀ e fsE, genLoop E rnd method number k st = .error (e, fsE) →
      preservesSummaries fsE st.fs) := by
  induction k with
  | zero =>
    constructor
    · intro st' h
      cases h
      exact preservesSummaries_refl st.fs
    · intro e fsE h
      cases h
  | succ k ih =>
    rcases hL : genLoop E rnd method number k st with ⟨e0, fsE0⟩ | st'
    · constructor
      · intro st'' h
        unfold genLoop at h
        simp only [hL] at h
        cases h
      · intro e fsE h
        unfold genLoop at h
        simp only [hL] at h
        injection h with h'
        injection h' with he hfs
        subst hfs
        exact ih.2 e0 fsE0 hL
    · have pL := ih.1 st' hL
      have pS := genStep_preservesSummaries E rnd method number k st'
      constructor
      · intro st'' h
        unfold genLoop at h
        simp only [hL] at h
        exact preservesSummaries_trans (pS.1 st'' h) pL
      · intro e fsE h
        unfold genLoop at h
        simp only [hL] at h
        exact preservesSummaries_trans (pS.2 e fsE h) pL

/-! ### Concrete fixtures used to exercise the claims -/

/-- A 1×1 spectrum holding the single value `x`. -/
def cmat (x : ℝ) : OMat := ⟨1, 1, fun _ _ => x, [0], [0], none⟩

/-- A randomness realization drawing `0` everywhere. -/
def rnd0 : RandSrc := ⟨fun _ _ _ => 0, fun _ _ _ _ => 0, fun _ _ _ => rfl⟩

/-- A second randomness realization (different normal stream). -/
def rndB : RandSrc := ⟨fun _ _ _ => 1, fun _ _ _ _ => 0, fun _ _ _ => rfl⟩

/-- Draw-0 firstgen artifact of the cached directory `fsC1`. -/
def fgA : OMat := cmat 5

/-- Draw-1 firstgen artifact of the cached directory `fsC1`. -/
def fgB : OMat := cmat 7

/-- A directory holding per-draw artifacts for every draw (raw = 1,
unfolded = 2, firstgen = 5 at draw 0 and 7 at the other draws), with all
writes succeeding. -/
def fsC1 : FS :=
  { store := fun p =>
      match p with
      | .rawStep _ => some (cmat 1)
      | .unfoldedStep _ => some (cmat 2)
      | .firstgenStep 0 => some fgA
      | .firstgenStep _ => some fgB
      | _ => none,
    writeOK := fun _ => true }

/-- An empty directory with all writes succeeding. -/
def fsEmptyW : FS := ⟨fun _ => none, fun _ => true⟩

/-- An ensemble with no collaborators assigned (fine on cache hits). -/
def EC1 : Ensemble := ⟨cmat 3, none, none, false⟩

/-- An ensemble whose collaborators are both the identity. -/
def E6 : Ensemble := ⟨cmat 3, some (fun m => m), some (fun m => m), false⟩

/-- An ensemble whose reference spectrum is identically zero. -/
def EC5 : Ensemble := ⟨cmat 0, none, none, false⟩

/-- The cached raw artifact of `fsC2`. -/
def mC2 : OMat := cmat 9

/-- A directory holding only the draw-0 raw artifact. -/
def fsC2 : FS :=
  { store := fun p =>
      match p with
      | .rawStep 0 => some mC2
      | _ => none,
    writeOK := fun _ => true }

/-! ### Claim theorems -/

/-- C3: for every reference spectrum, `generate_gaussian` returns a grid
of the reference's shape in which each cell is the normal draw centered
at the original cell value with standard deviation `sqrt(max(value, 0))`
(realized as `value + sqrt(max(value, 0)) * z` for the standard-normal
draw `z`), with any negative draw clamped to zero, so every output value
is nonnegative. -/
theorem c3_generate_gaussian_model (E : Ensemble) (z : ℕ → ℕ → ℝ) (i j : ℕ) :
    E.generate_gaussian z i j
      = max 0 (E.raw.values i j + Real.sqrt (max (E.raw.values i j) 0) * z i j) ∧
    0 ≤ E.generate_gaussian z i j ∧
    (E.mkRawMat (E.generate_gaussian z)).shape = E.raw.shape := by
  have h1 : E.generate_gaussian z i j
      = max 0 (E.raw.values i j + Real.sqrt (max (E.raw.values i j) 0) * z i j) := by
    simp only [Ensemble.generate_gaussian]
    rw [ite_neg_eq_max, rawStd_eq_sqrt_max]
  exact ⟨h1, h1 ▸ le_max_left 0 _, rfl⟩

/-- C4: `generate_poisson` hands the sampler the rate
`sqrt(max(value, 0))` — the square root of the count, not the count
itself (at a count of `4` the rate is `2`, not `4`). -/
theorem c4_generate_poisson_rate (E : Ensemble) (pois : ℕ → ℕ → ℝ → ℕ) (i j : ℕ) :
    E.generate_poisson pois i j = pois i j (Real.sqrt (max (E.raw.values i j) 0)) ∧
    Real.sqrt (max (4 : ℝ) 0) = 2 ∧ Real.sqrt (max (4 : ℝ) 0) ≠ 4 := by
  have h2 : Real.sqrt (max (4 : ℝ) 0) = 2 := by
    rw [max_eq_left (by norm_num : (0 : ℝ) ≤ 4)]
    rw [show (4 : ℝ) = 2 ^ 2 by norm_num, Real.sqrt_sq (by norm_num : (0 : ℝ) ≤ 2)]
  refine ⟨?_, h2, ?_⟩
  · rw [Ensemble.generate_poisson, rawStd_eq_sqrt_max]
  · rw [h2]
    norm_num

/-- C5: at any cell whose reference value is `0`, the computed scale or
rate is `0`, so the Gaussian draw is deterministically the original `0`
(the clamp is a no-op) and the Poisson draw at rate `0` is always `0`. -/
theorem c5_zero_cell_deterministic_zero (E : Ensemble) (rnd : RandSrc) (s i j : ℕ)
    (h : E.raw.values i j = 0) :
    E.generate_gaussian (rnd.normal s) i j = 0 ∧
    E.generate_poisson (rnd.poisson s) i j = 0 := by
  have hstd : E.rawStd i j = 0 := by
    rw [rawStd_eq_sqrt_max, h]
    simp
  constructor
  · simp only [Ensemble.generate_gaussian, hstd, h]
    norm_num
  · rw [Ensemble.generate_poisson, hstd]
    exact rnd.poisson_zero s i j

/-- C5 witness: a zero reference cell yields `0` under both models for a
concrete realization. -/
theorem c5_zero_cell_deterministic_zero_witness :
    EC5.raw.values 0 0 = 0 ∧
    EC5.generate_gaussian (rnd0.normal 0) 0 0 = 0 ∧
    EC5.generate_poisson (rnd0.poisson 0) 0 0 = 0 :=
  ⟨rfl, (c5_zero_cell_deterministic_zero EC5 rnd0 0 0 0 rfl).1,
    (c5_zero_cell_deterministic_zero EC5 rnd0 0 0 0 rfl).2⟩

/-- C10: `generate_poisson` output values are nonnegative integers by
construction (a cast of a natural-number Poisson sample) even though,
unlike `generate_gaussian`, no clamping step is applied — so the
raw-stage nonnegativity guarantee holds for the poisson model without a
clamp. -/
theorem c10_generate_poisson_nonneg_integer (E : Ensemble) (pois : ℕ → ℕ → ℝ → ℕ)
    (i j : ℕ) :
    (0 : ℝ) ≤ ((E.generate_poisson pois i j : ℕ) : ℝ) ∧
    (∃ n : ℕ, ((E.generate_poisson pois i j : ℕ) : ℝ) = (n : ℝ)) ∧
    (E.mkRawMat fun a b => ((E.generate_poisson pois a b : ℕ) : ℝ)).values i j
      = ((E.generate_poisson pois i j : ℕ) : ℝ) :=
  ⟨Nat.cast_nonneg _, ⟨_, rfl⟩, rfl⟩

/-- C1: the claim fails on the code.  Line 112 compares the firstgen
stack's numpy shape — the 3-tuple `(number, rows, cols)` — with the
firstgen matrix's 2-tuple shape, so the test is true on every draw
(first conjunct) and the stack is re-zeroed and reallocated each
iteration.  Consequently, in a concrete fully-cached run of two draws
whose firstgen artifacts have identical shapes and values `5` and `7`,
the final firstgen stack holds `0` (not `5`) below the final step, and
only the final draw's `7` survives. -/
theorem c1_firstgen_stack_dropped_every_draw :
    (∀ (s : Stack) (m : OMat), s.shape ≠ m.shape) ∧
    fsC1.store (Path.firstgenStep 0) = some fgA ∧
    fsC1.store (Path.firstgenStep 1) = some fgB ∧
    fgA.shape = fgB.shape ∧
    fgA.values 0 0 = 5 ∧
    (EC1.generate fsC1 2 "poisson" false rnd0).1.map
      (fun res => res.firstgen_ensemble.values 0 0 0) = Except.ok 0 ∧
    (EC1.generate fsC1 2 "poisson" false rnd0).1.map
      (fun res => res.firstgen_ensemble.values 1 0 0) = Except.ok 7 := by
  refine ⟨fun s m h => ?_, rfl, rfl, rfl, rfl, rfl, rfl⟩
  have hlen := congrArg List.length h
  simp [Stack.shape, OMat.shape] at hlen

/-- C2 counterexample: with a draw whose raw artifact exists and
`regenerate = false`, `generate_raw` called with the unsupported method
name "bogus" does not fail — it loads and returns the cached spectrum,
contradicting the claim that the unsupported-method error hits every
draw index including cached ones. -/
theorem c2_counterexample_cached_draw_ignores_method :
    EC1.generate_raw fsC2 0 "bogus" rnd0 = .ok (mC2, fsC2) ∧
    ∀ e : OmpyError, EC1.generate_raw fsC2 0 "bogus" rnd0 ≠ .error e := by
  refine ⟨rfl, ?_⟩
  intro e h
  have h' : (Except.ok (mC2, fsC2) : Except OmpyError (OMat × FS)) = .error e := h
  cases h'

/-- Helper: a failure of the very first iteration aborts every longer
loop with the same error and directory state. -/
theorem genLoop_error_of_step0 (E : Ensemble) (rnd : RandSrc) (method : String)
    (number : ℕ) (k : ℕ) (st : LoopState) (e : OmpyError × FS)
    (h0 : genStep E rnd method number 0 st = .error e) :
    genLoop E rnd method number (k + 1) st = .error e := by
  induction k with
  | zero =>
    unfold genLoop
    simpa using h0
  | succ k ih =>
    unfold genLoop
    rw [ih]

/-- C2 (amended): an unsupported method name makes the raw stage fail
with the unsupported-method error exactly on the draws that reach the
compute branch — artifact missing, or `regenerate` true (in which case
the whole `generate` call aborts at draw 0 with that error) — while a
draw whose artifact exists with `regenerate = false` loads the cached
spectrum and succeeds without any method check. -/
theorem c2_amended_unsupported_method_miss_only (E E₀ : Ensemble) (fs : FS)
    (step : ℕ) (rnd : RandSrc) (method : String) (m : OMat) (number : ℕ)
    (hm1 : method ≠ "gaussian") (hm2 : method ≠ "poisson") :
    (fs.store (Path.rawStep step) = none →
      E.generate_raw fs step method rnd = .error (.unsupportedMethod method)) ∧
    (E.regenerate = true →
      E.generate_raw fs step method rnd = .error (.unsupportedMethod method)) ∧
    (fs.store (Path.rawStep step) = some m → E.regenerate = false →
      E.generate_raw fs step method rnd = .ok (m, fs)) ∧
    (1 ≤ number →
      (E₀.generate fs number method true rnd).1 = .error (.unsupportedMethod method)) := by
  refine ⟨fun hmiss => generate_raw_unsupported_of_miss E fs step method rnd hm1 hm2
      (Or.inl hmiss),
    fun hreg => generate_raw_unsupported_of_miss E fs step method rnd hm1 hm2
      (Or.inr hreg),
    fun hsome hreg => generate_raw_hit E fs step method rnd m hreg hsome,
    fun hn => ?_⟩
  obtain ⟨k, rfl⟩ : ∃ k, number = k + 1 :=
    ⟨number - 1, (Nat.succ_pred_eq_of_pos hn).symm⟩
  have hstep : genStep { E₀ with regenerate := true } rnd method (k + 1) 0
      (initState E₀.raw fs (k + 1)) = .error (.unsupportedMethod method, fs) := by
    unfold genStep
    rw [generate_raw_unsupported_of_miss _ _ _ _ _ hm1 hm2 (Or.inr rfl)]
    rfl
  have hloop := genLoop_error_of_step0 { E₀ with regenerate := true } rnd method
    (k + 1) k (initState E₀.raw fs (k + 1)) (.unsupportedMethod method, fs) hstep
  unfold Ensemble.generate
  simp only [hloop]

/-- C2 witness: concrete instances of the amended behavior — a missing
artifact fails with the unsupported-method error, a cached artifact is
returned untouched, and a `regenerate = true` call aborts wholesale. -/
theorem c2_amended_unsupported_method_miss_only_witness :
    Ensemble.generate_raw EC1 fsEmptyW 0 "bogus" rnd0
      = .error (.unsupportedMethod "bogus") ∧
    Ensemble.generate_raw EC1 fsC2 0 "bogus" rnd0 = .ok (mC2, fsC2) ∧
    (EC1.generate fsEmptyW 1 "bogus" true rnd0).1
      = .error (.unsupportedMethod "bogus") := by
  have H1 := c2_amended_unsupported_method_miss_only EC1 EC1 fsEmptyW 0 rnd0 "bogus"
    mC2 1 (by decide) (by decide)
  have H2 := c2_amended_unsupported_method_miss_only EC1 EC1 fsC2 0 rnd0 "bogus"
    mC2 1 (by decide) (by decide)
  exact ⟨H1.1 rfl, H2.2.2.1 rfl rfl, H1.2.2.2 (Nat.le_refl 1)⟩

/-- C6: checkpoint policy of the three stages.  On a hit (artifact
present, `regenerate` false) each stage returns the persisted spectrum
verbatim with the directory untouched and, for the raw stage, without
consulting the method name.  On a miss each stage computes its output
(the chosen perturbation, `unfolder.unfold`, or
`first_generation_method`), persists it at exactly its own per-draw
path (leaving every other entry unchanged), and returns it.  The
per-draw paths denote the file names `raw_{step}.m`,
`unfolded_{step}.m`, `firstgen_{step}.m`. -/
theorem c6_checkpoint_policy (E : Ensemble) (fsH fsM : FS) (step : ℕ) (rnd : RandSrc)
    (method : String) (mR mU mF raw unf : OMat) (u f : OMat → OMat)
    (hreg : E.regenerate = false)
    (hHr : fsH.store (Path.rawStep step) = some mR)
    (hHu : fsH.store (Path.unfoldedStep step) = some mU)
    (hHf : fsH.store (Path.firstgenStep step) = some mF)
    (hMr : fsM.store (Path.rawStep step) = none)
    (hMu : fsM.store (Path.unfoldedStep step) = none)
    (hMf : fsM.store (Path.firstgenStep step) = none)
    (hw : ∀ p, fsM.writeOK p = true)
    (hu : E.unfolder = some u)
    (hf : E.first_generation_method = some f) :
    (E.generate_raw fsH step method rnd = .ok (mR, fsH)) ∧
    (E.unfold fsH step raw = .ok (mU, fsH)) ∧
    (E.first_generation fsH step unf = .ok (mF, fsH)) ∧
    (E.generate_raw fsM step "poisson" rnd =
      .ok (E.mkRawMat (fun i j => (E.generate_poisson (rnd.poisson step) i j : ℝ)),
        fsM.insert (Path.rawStep step)
          (E.mkRawMat (fun i j => (E.generate_poisson (rnd.poisson step) i j : ℝ))))) ∧
    (E.generate_raw fsM step "gaussian" rnd =
      .ok (E.mkRawMat (E.generate_gaussian (rnd.normal step)),
        fsM.insert (Path.rawStep step) (E.mkRawMat (E.generate_gaussian (rnd.normal step))))) ∧
    (E.unfold fsM step raw = .ok (u raw, fsM.insert (Path.unfoldedStep step) (u raw))) ∧
    (E.first_generation fsM step unf =
      .ok (f unf, fsM.insert (Path.firstgenStep step) (f unf))) ∧
    ((fsM.insert (Path.rawStep step) raw).store (Path.rawStep step) = some raw) ∧
    (∀ q, q ≠ Path.rawStep step →
      (fsM.insert (Path.rawStep step) raw).store q = fsM.store q) ∧
    Path.fileName (Path.rawStep step) = "raw_" ++ toString step ++ ".m" ∧
    Path.fileName (Path.unfoldedStep step) = "unfolded_" ++ toString step ++ ".m" ∧
    Path.fileName (Path.firstgenStep step) = "firstgen_" ++ toString step ++ ".m" :=
  ⟨generate_raw_hit E fsH step method rnd mR hreg hHr,
    unfold_hit E fsH step raw mU hreg hHu,
    first_generation_hit E fsH step unf mF hreg hHf,
    generate_raw_poisson_miss E fsM step rnd hMr (hw _),
    generate_raw_gaussian_miss E fsM step rnd hMr (hw _),
    unfold_miss E fsM step raw u hMu hu (hw _),
    first_generation_miss E fsM step unf f hMf hf (hw _),
    FS.insert_store_self fsM _ raw,
    fun q hq => FS.insert_store_of_ne fsM _ raw hq,
    rfl, rfl, rfl⟩

/-- C6 witness: hit and miss behavior at concrete inputs — a cached raw
draw loads `1` from the full directory, and an unfold miss on the empty
directory computes the identity and persists it. -/
theorem c6_checkpoint_policy_witness :
    Ensemble.generate_raw E6 fsC1 0 "poisson" rnd0 = .ok (cmat 1, fsC1) ∧
    Ensemble.unfold E6 fsEmptyW 0 (cmat 1) =
      .ok (cmat 1, fsEmptyW.insert (Path.unfoldedStep 0) (cmat 1)) := by
  have H := c6_checkpoint_policy E6 fsC1 fsEmptyW 0 rnd0 "poisson" (cmat 1) (cmat 2)
    fgA (cmat 1) (cmat 9) (fun m => m) (fun m => m) rfl rfl rfl rfl rfl rfl rfl
    (fun _ => rfl) rfl rfl
  exact ⟨H.1, H.2.2.2.2.2.1⟩

/-- C9: if any stage fails at any draw — the loop returns an error
state — the whole `generate` call aborts with that error: the three
summary files are untouched relative to the starting directory, and no
`EnsembleResult` (the `std_raw` / `std_unfolded` / `std_firstgen` /
`firstgen_ensemble` attributes) is produced. -/
theorem c9_loop_failure_aborts_without_summaries (E : Ensemble) (fs : FS)
    (number : ℕ) (method : String) (r : Bool) (rnd : RandSrc) (e : OmpyError)
    (fsE : FS)
    (hloop : genLoop { E with regenerate := r } rnd method number number
      (initState E.raw fs number) = .error (e, fsE)) :
    E.generate fs number method r rnd = (.error e, fsE) ∧
    fsE.store Path.rawSummary = fs.store Path.rawSummary ∧
    fsE.store Path.unfoldedSummary = fs.store Path.unfoldedSummary ∧
    fsE.store Path.firstgenSummary = fs.store Path.firstgenSummary := by
  have hp := (genLoop_preservesSummaries { E with regenerate := r } rnd method
    number number (initState E.raw fs number)).2 e fsE hloop
  refine ⟨?_, hp.1, hp.2.1, hp.2.2⟩
  unfold Ensemble.generate
  simp only [hloop]

/-- Directory state at the failure of the concrete run behind the C9
witness: the draw-0 raw artifact was already written when the unfold
stage found no collaborator. -/
noncomputable def fsE9 : FS :=
  fsEmptyW.insert (Path.rawStep 0)
    (Ensemble.mkRawMat { EC1 with regenerate := false }
      (fun i j => ((Ensemble.generate_poisson { EC1 with regenerate := false }
        (rnd0.poisson 0) i j : ℕ) : ℝ)))

/-- C9 witness: with no unfolder configured and an empty directory, the
call aborts with the missing-collaborator error and writes no summary
file. -/
theorem c9_loop_failure_aborts_without_summaries_witness :
    (Ensemble.generate EC1 fsEmptyW 1 "poisson" false rnd0).1
      = .error .missingCollaborator ∧
    (Ensemble.generate EC1 fsEmptyW 1 "poisson" false rnd0).2.store Path.rawSummary
      = none := by
  have hloop : genLoop { EC1 with regenerate := false } rnd0 "poisson" 1 1
      (initState EC1.raw fsEmptyW 1) = .error (.missingCollaborator, fsE9) := rfl
  have H := c9_loop_failure_aborts_without_summaries EC1 fsEmptyW 1 "poisson" false
    rnd0 .missingCollaborator fsE9 hloop
  constructor
  · rw [H.1]
  · rw [H.1]
    exact H.2.1

/-- C7: after a successful loop, `generate` computes the elementwise
standard deviation across axis 0 of each of the three stacks, producing
three summary spectra tagged `std` — the raw and unfolded summaries
carrying the reference spectrum's axes, the firstgen summary carrying
the final draw's firstgen axes — and persists them under the fixed
names `raw.m`, `unfolded_std.m` and `first_std.m` in the storage
location. -/
theorem c7_summary_std_spectra (E₀ : Ensemble) (fs₀ : FS) (number : ℕ)
    (method : String) (r : Bool) (rnd : RandSrc) (st : LoopState) (fg : OMat)
    (hloop : genLoop { E₀ with regenerate := r } rnd method number number
      (initState E₀.raw fs₀ number) = .ok st)
    (hfg : st.firstgen = some fg)
    (hw1 : st.fs.writeOK Path.rawSummary = true)
    (hw2 : st.fs.writeOK Path.unfoldedSummary = true)
    (hw3 : st.fs.writeOK Path.firstgenSummary = true) :
    ∃ res fs', E₀.generate fs₀ number method r rnd = (.ok res, fs') ∧
      res.std_raw = stdMat st.rawE E₀.raw.Eg E₀.raw.Ex ∧
      res.std_unfolded = stdMat st.unfE E₀.raw.Eg E₀.raw.Ex ∧
      res.std_firstgen = stdMat st.fgE fg.Eg fg.Ex ∧
      res.std_raw.values = stdAxis0 st.rawE ∧
      res.std_unfolded.values = stdAxis0 st.unfE ∧
      res.std_firstgen.values = stdAxis0 st.fgE ∧
      res.std_raw.state = some "std" ∧
      res.std_unfolded.state = some "std" ∧
      res.std_firstgen.state = some "std" ∧
      res.std_raw.Eg = E₀.raw.Eg ∧ res.std_raw.Ex = E₀.raw.Ex ∧
      res.std_unfolded.Eg = E₀.raw.Eg ∧ res.std_unfolded.Ex = E₀.raw.Ex ∧
      res.std_firstgen.Eg = fg.Eg ∧ res.std_firstgen.Ex = fg.Ex ∧
      fs'.store Path.rawSummary = some res.std_raw ∧
      fs'.store Path.unfoldedSummary = some res.std_unfolded ∧
      fs'.store Path.firstgenSummary = some res.std_firstgen ∧
      Path.fileName Path.rawSummary = "raw.m" ∧
      Path.fileName Path.unfoldedSummary = "unfolded_std.m" ∧
      Path.fileName Path.firstgenSummary = "first_std.m" := by
  refine ⟨_, _, generate_of_loop_ok E₀ fs₀ number method r rnd st fg hloop hfg hw1 hw2 hw3,
    rfl, rfl, rfl, rfl, rfl, rfl, rfl, rfl, rfl, rfl, rfl, rfl, rfl, rfl, rfl,
    ?_, ?_, ?_, rfl, rfl, rfl⟩
  · rw [FS.insert_store_of_ne _ _ _ (by decide), FS.insert_store_of_ne _ _ _ (by decide)]
    exact FS.insert_store_self _ _ _
  · rw [FS.insert_store_of_ne _ _ _ (by decide)]
    exact FS.insert_store_self _ _ _
  · exact FS.insert_store_self _ _ _

/-- C7 witness: a concrete fully-cached single-draw run whose final
directory holds the raw summary spectrum at `raw.m`, tagged `std`. -/
theorem c7_summary_std_spectra_witness :
    (Ensemble.generate E6 fsC1 1 "poisson" false rnd0).2.store Path.rawSummary
        = some (stdMat (cachedState fsC1 1 1 (initState E6.raw fsC1 1)).rawE
            E6.raw.Eg E6.raw.Ex) ∧
    (stdMat (cachedState fsC1 1 1 (initState E6.raw fsC1 1)).rawE
        E6.raw.Eg E6.raw.Ex).state = some "std" := by
  have hc : ∀ j, j < 1 →
      ((fsC1.store (Path.rawStep j)).isSome ∧
        (fsC1.store (Path.unfoldedStep j)).isSome ∧
        (fsC1.store (Path.firstgenStep j)).isSome) := by
    intro j hj
    have hj0 : j = 0 := Nat.lt_one_iff.mp hj
    subst hj0
    exact ⟨rfl, rfl, rfl⟩
  have hloop : genLoop { E6 with regenerate := false } rnd0 "poisson" 1 1
      (initState E6.raw fsC1 1)
      = .ok (cachedState fsC1 1 1 (initState E6.raw fsC1 1)) :=
    genLoop_cached { E6 with regenerate := false } rnd0 "poisson" 1 1
      (initState E6.raw fsC1 1) rfl hc
  have hfs : (cachedState fsC1 1 1 (initState E6.raw fsC1 1)).fs = fsC1 :=
    cachedState_fs fsC1 1 1 (initState E6.raw fsC1 1)
  have hfg : (cachedState fsC1 1 1 (initState E6.raw fsC1 1)).firstgen = some fgA :=
    cachedState_firstgen fsC1 1 0 (initState E6.raw fsC1 1) (cmat 1) (cmat 2) fgA
      rfl rfl rfl
  obtain ⟨res, fs', hgen, hsr, _, _, _, _, _, hst, _, _, _, _, _, _, _, _, hstore, _⟩ :=
    c7_summary_std_spectra E6 fsC1 1 "poisson" false rnd0
      (cachedState fsC1 1 1 (initState E6.raw fsC1 1)) fgA hloop hfg
      (by rw [hfs]; rfl) (by rw [hfs]; rfl) (by rw [hfs]; rfl)
  constructor
  · rw [hgen]
    rw [hstore, hsr]
  · rw [← hsr]
    exact hst

/-- C8: with a fully pre-populated directory and `regenerate = false`,
`generate` succeeds, and calling it a second time on the resulting
directory — with an arbitrary, possibly different randomness
realization, so no stochastic computation can influence the outcome —
returns the bit-identical result (all three summary spectra and the
firstgen stack). -/
theorem c8_generate_idempotent_on_full_cache (E : Ensemble) (fs : FS) (number : ℕ)
    (method : String) (rnd1 rnd2 : RandSrc)
    (hn : 1 ≤ number)
    (hc : ∀ j, j < number →
      (fs.store (Path.rawStep j)).isSome ∧
      (fs.store (Path.unfoldedStep j)).isSome ∧
      (fs.store (Path.firstgenStep j)).isSome)
    (hw : ∀ p, fs.writeOK p = true) :
    ∃ res fs1, E.generate fs number method false rnd1 = (.ok res, fs1) ∧
      (E.generate fs1 number method false rnd2).1 = .ok res := by
  obtain ⟨k, rfl⟩ : ∃ k, number = k + 1 :=
    ⟨number - 1, (Nat.succ_pred_eq_of_pos hn).symm⟩
  obtain ⟨r0, hr0⟩ := Option.isSome_iff_exists.mp (hc k (Nat.lt_succ_self k)).1
  obtain ⟨u0, hu0⟩ := Option.isSome_iff_exists.mp (hc k (Nat.lt_succ_self k)).2.1
  obtain ⟨g0, hg0⟩ := Option.isSome_iff_exists.mp (hc k (Nat.lt_succ_self k)).2.2
  have hloop1 : genLoop { E with regenerate := false } rnd1 method (k + 1) (k + 1)
      (initState E.raw fs (k + 1)) =
      .ok (cachedState fs (k + 1) (k + 1) (initState E.raw fs (k + 1))) :=
    genLoop_cached { E with regenerate := false } rnd1 method (k + 1) (k + 1)
      (initState E.raw fs (k + 1)) rfl hc
  have hfsS : (cachedState fs (k + 1) (k + 1) (initState E.raw fs (k + 1))).fs = fs :=
    cachedState_fs fs (k + 1) (k + 1) (initState E.raw fs (k + 1))
  have hfg1 : (cachedState fs (k + 1) (k + 1) (initState E.raw fs (k + 1))).firstgen
      = some g0 :=
    cachedState_firstgen fs (k + 1) k (initState E.raw fs (k + 1)) r0 u0 g0 hr0 hu0 hg0
  have hgen1 := generate_of_loop_ok E fs (k + 1) method false rnd1
    (cachedState fs (k + 1) (k + 1) (initState E.raw fs (k + 1))) g0 hloop1 hfg1
    (by rw [hfsS]; exact hw _) (by rw [hfsS]; exact hw _) (by rw [hfsS]; exact hw _)
  refine ⟨_, _, hgen1, ?_⟩
  -- the directory after the first call, with `S.fs` rewritten to `fs`
  rw [hfsS] at hgen1 ⊢
  -- per-draw entries of the post-call directory agree with `fs`
  have hp : ∀ j,
      ((((fs.insert Path.rawSummary
          (stdMat (cachedState fs (k + 1) (k + 1) (initState E.raw fs (k + 1))).rawE
            E.raw.Eg E.raw.Ex)).insert Path.unfoldedSummary
          (stdMat (cachedState fs (k + 1) (k + 1) (initState E.raw fs (k + 1))).unfE
            E.raw.Eg E.raw.Ex)).insert Path.firstgenSummary
          (stdMat (cachedState fs (k + 1) (k + 1) (initState E.raw fs (k + 1))).fgE
            g0.Eg g0.Ex)).store (Path.rawStep j) = fs.store (Path.rawStep j)) ∧
      ((((fs.insert Path.rawSummary
          (stdMat (cachedState fs (k + 1) (k + 1) (initState E.raw fs (k + 1))).rawE
            E.raw.Eg E.raw.Ex)).insert Path.unfoldedSummary
          (stdMat (cachedState fs (k + 1) (k + 1) (initState E.raw fs (k + 1))).unfE
            E.raw.Eg E.raw.Ex)).insert Path.firstgenSummary
          (stdMat (cachedState fs (k + 1) (k + 1) (initState E.raw fs (k + 1))).fgE
            g0.Eg g0.Ex)).store (Path.unfoldedStep j) = fs.store (Path.unfoldedStep j)) ∧
      ((((fs.insert Path.rawSummary
          (stdMat (cachedState fs (k + 1) (k + 1) (initState E.raw fs (k + 1))).rawE
            E.raw.Eg E.raw.Ex)).insert Path.unfoldedSummary
          (stdMat (cachedState fs (k + 1) (k + 1) (initState E.raw fs (k + 1))).unfE
            E.raw.Eg E.raw.Ex)).insert Path.firstgenSummary
          (stdMat (cachedState fs (k + 1) (k + 1) (initState E.raw fs (k + 1))).fgE
            g0.Eg g0.Ex)).store (Path.firstgenStep j) = fs.store (Path.firstgenStep j)) := by
    intro j
    refine ⟨?_, ?_, ?_⟩ <;>
      rw [FS.insert_store_of_ne _ _ _ (by simp), FS.insert_store_of_ne _ _ _ (by simp),
        FS.insert_store_of_ne _ _ _ (by simp)]
  generalize hfs1 :
    (((fs.insert Path.rawSummary
        (stdMat (cachedState fs (k + 1) (k + 1) (initState E.raw fs (k + 1))).rawE
          E.raw.Eg E.raw.Ex)).insert Path.unfoldedSummary
        (stdMat (cachedState fs (k + 1) (k + 1) (initState E.raw fs (k + 1))).unfE
          E.raw.Eg E.raw.Ex)).insert Path.firstgenSummary
        (stdMat (cachedState fs (k + 1) (k + 1) (initState E.raw fs (k + 1))).fgE
          g0.Eg g0.Ex)) = fs1 at hp ⊢
  have hwOK1 : ∀ p, fs1.writeOK p = true := by
    intro p
    rw [← hfs1]
    exact hw p
  have hc2 : ∀ j, j < k + 1 →
      (fs1.store (Path.rawStep j)).isSome ∧
      (fs1.store (Path.unfoldedStep j)).isSome ∧
      (fs1.store (Path.firstgenStep j)).isSome := by
    intro j hj
    rw [(hp j).1, (hp j).2.1, (hp j).2.2]
    exact hc j hj
  have hloop2 : genLoop { E with regenerate := false } rnd2 method (k + 1) (k + 1)
      (initState E.raw fs1 (k + 1)) =
      .ok (cachedState fs1 (k + 1) (k + 1) (initState E.raw fs1 (k + 1))) :=
    genLoop_cached { E with regenerate := false } rnd2 method (k + 1) (k + 1)
      (initState E.raw fs1 (k + 1)) rfl hc2
  have hS2 : cachedState fs1 (k + 1) (k + 1) (initState E.raw fs1 (k + 1)) =
      { cachedState fs (k + 1) (k + 1) (initState E.raw fs (k + 1)) with fs := fs1 } := by
    have h1 : cachedState fs1 (k + 1) (k + 1) (initState E.raw fs1 (k + 1)) =
        { cachedState fs1 (k + 1) (k + 1) (initState E.raw fs (k + 1)) with fs := fs1 } :=
      cachedState_set_fs fs1 fs1 (k + 1) (k + 1) (initState E.raw fs (k + 1))
    have h2 : cachedState fs1 (k + 1) (k + 1) (initState E.raw fs (k + 1)) =
        cachedState fs (k + 1) (k + 1) (initState E.raw fs (k + 1)) :=
      cachedState_congr fs fs1 (k + 1) (k + 1) (initState E.raw fs (k + 1)) (fun j _ => hp j)
    rw [h1, h2]
  have hfg2 : (cachedState fs1 (k + 1) (k + 1) (initState E.raw fs1 (k + 1))).firstgen
      = some g0 := by
    rw [hS2]
    exact hfg1
  have hfsS2 : (cachedState fs1 (k + 1) (k + 1) (initState E.raw fs1 (k + 1))).fs = fs1 := by
    rw [hS2]
  have hgen2 := generate_of_loop_ok E fs1 (k + 1) method false rnd2
    (cachedState fs1 (k + 1) (k + 1) (initState E.raw fs1 (k + 1))) g0 hloop2 hfg2
    (by rw [hfsS2]; exact hwOK1 _) (by rw [hfsS2]; exact hwOK1 _)
    (by rw [hfsS2]; exact hwOK1 _)
  rw [hgen2, hS2]

/-- C8 witness: on the concrete fully-cached directory, a second
`generate` call (run with a different randomness realization) returns
the same result value as the first. -/
theorem c8_generate_idempotent_on_full_cache_witness :
    (Ensemble.generate EC1 fsC1 1 "poisson" false rnd0).1 =
      (Ensemble.generate EC1
        ((Ensemble.generate EC1 fsC1 1 "poisson" false rnd0).2)
        1 "poisson" false rndB).1 := by
  have hc : ∀ j, j < 1 →
      ((fsC1.store (Path.rawStep j)).isSome ∧
        (fsC1.store (Path.unfoldedStep j)).isSome ∧
        (fsC1.store (Path.firstgenStep j)).isSome) := by
    intro j hj
    have hj0 : j = 0 := Nat.lt_one_iff.mp hj
    subst hj0
    exact ⟨rfl, rfl, rfl⟩
  obtain ⟨res, fs1, h1, h2⟩ := c8_generate_idempotent_on_full_cache EC1 fsC1 1
    "poisson" rnd0 rndB (Nat.le_refl 1) hc (fun _ => rfl)
  rw [h1]
  show Except.ok res = (Ensemble.generate EC1 fs1 1 "poisson" false rndB).1
  rw [h2]

end Ompy

